import Mathlib

/-!
Verification of the SecureKeeper credential-vault server core.

Shallow embedding of `src/server/routes.ts`: the login rate-limiter
middleware (`loginRateLimiter`), the login route handler, and the vault /
alert / activity-log route handlers.  Storage operations
(`src/server/storage.ts`), the strength scorer (`src/server/utils.ts`) and
the login verifier (`src/server/auth.ts`) are not part of the provided
sources; where a claim depends on them they are modelled from the spec and
their doc comments say so.

Machine integers are modelled as `Nat` (JS timestamps and counters stay far
below 2^53, and no arithmetic here can overflow or go negative in a way the
code observes: the only subtraction, `now - lastAttempt`, feeds a `> BLOCK`
comparison that agrees with truncated subtraction whenever it matters).
-/

/-- One per-identity record of the in-memory rate-limiting store:
`loginAttempts[ip] = { count, lastAttempt }` (routes.ts line 28). -/
structure AttemptInfo where
  count : Nat
  lastAttempt : Nat
deriving Repr, DecidableEq

/-- routes.ts line 29: `const MAX_ATTEMPTS = 5`. -/
def MAX_ATTEMPTS : Nat := 5

/-- routes.ts line 30: `const BLOCK_TIME_MS = 15 * 60 * 1000`. -/
def BLOCK_TIME_MS : Nat := 15 * 60 * 1000

/-- Outcome of one request to POST /api/auth/login, by HTTP status:
429 from the middleware, 400 from schema validation, 200 on successful
login, 500 (`handleServerError`) from the catch block on a failed login. -/
inductive LoginResult where
  | rateLimited
  | badRequest
  | success
  | failure
deriving Repr, DecidableEq

/-- HTTP status carried by each login outcome (routes.ts lines 61, 83,
89/`login`, 109). -/
def LoginResult.status : LoginResult → Nat
  | .rateLimited => 429
  | .badRequest => 400
  | .success => 200
  | .failure => 500

/-- The `loginRateLimiter` middleware (routes.ts lines 43-69) acting on one
identity's record.  `rec` is `loginAttempts[ip]` before the request
(`none` when the identity has no record), `now` is `Date.now()`.  Returns
the stored record after the middleware ran together with the blocked flag
(`true` means the middleware answered 429 and never called `next()`). -/
def loginRateLimiter (rec : Option AttemptInfo) (now : Nat) :
    AttemptInfo × Bool :=
  let info0 : AttemptInfo := match rec with
    | none => ⟨0, now⟩
    | some i => i
  let info1 : AttemptInfo :=
    if now - info0.lastAttempt > BLOCK_TIME_MS then ⟨0, info0.lastAttempt⟩
    else info0
  let info2 : AttemptInfo := ⟨info1.count, now⟩
  (info2, decide (info2.count ≥ MAX_ATTEMPTS))

/-- One full request to POST /api/auth/login (routes.ts lines 76-112):
the `loginRateLimiter` middleware followed by the handler.  `bodyValid`
is the outcome of `loginUserSchema.safeParse`; `credsOk` is whether the
verifier accepts the credentials.  The verifier `login` lives in
src/server/auth.ts, outside the provided sources; modelled from the spec:
a failed authentication surfaces to the route as the catch branch (which
increments the counter), a successful one returns normally (counter reset
to 0).  Result: the stored record after the request, the response, and
whether the verifier was invoked on this request. -/
def loginAttempt (rec : Option AttemptInfo) (now : Nat)
    (bodyValid credsOk : Bool) : AttemptInfo × LoginResult × Bool :=
  let g := loginRateLimiter rec now
  if g.2 then (g.1, .rateLimited, false)
  else if bodyValid = false then (g.1, .badRequest, false)
  else if credsOk then (⟨0, now⟩, .success, true)
  else (⟨g.1.count + 1, now⟩, .failure, true)

/- ### Rate-gate step lemmas -/

/-- A fresh identity gets the record `{count := 0, lastAttempt := now}`
and is never blocked. -/
theorem loginRateLimiter_fresh (now : Nat) :
    loginRateLimiter none now = (⟨0, now⟩, false) := by
  simp [loginRateLimiter, MAX_ATTEMPTS]

/-- Within the window the middleware keeps the count and refreshes
`lastAttempt`; it blocks exactly when the count already reached
`MAX_ATTEMPTS`. -/
theorem loginRateLimiter_within (c t now : Nat)
    (hgap : now - t ≤ BLOCK_TIME_MS) :
    loginRateLimiter (some ⟨c, t⟩) now =
      (⟨c, now⟩, decide (c ≥ MAX_ATTEMPTS)) := by
  simp [loginRateLimiter, Nat.not_lt.mpr hgap]

/-- Past the window the middleware resets the count to 0 (and never
blocks). -/
theorem loginRateLimiter_expired (c t now : Nat)
    (hgap : BLOCK_TIME_MS < now - t) :
    loginRateLimiter (some ⟨c, t⟩) now = (⟨0, now⟩, false) := by
  simp [loginRateLimiter, hgap, MAX_ATTEMPTS]

/-- A failed login attempt within the window, below the cap: the counter
goes up by one, the verifier runs, the response is the 500 failure path. -/
theorem loginAttempt_fail_step (c t now : Nat)
    (hgap : now - t ≤ BLOCK_TIME_MS) (hc : c < MAX_ATTEMPTS) :
    loginAttempt (some ⟨c, t⟩) now true false =
      (⟨c + 1, now⟩, .failure, true) := by
  simp [loginAttempt, loginRateLimiter_within c t now hgap,
    Nat.not_le.mpr hc]

/-- The very first attempt from a fresh identity, failing: count becomes 1. -/
theorem loginAttempt_fresh_fail (now : Nat) :
    loginAttempt none now true false = (⟨1, now⟩, .failure, true) := by
  simp [loginAttempt, loginRateLimiter_fresh, MAX_ATTEMPTS]

/-- At or above the cap, within the window, any attempt is answered 429
without invoking the verifier, whatever the body or credentials. -/
theorem loginAttempt_blocked (c t now : Nat) (bv cr : Bool)
    (hgap : now - t ≤ BLOCK_TIME_MS) (hc : MAX_ATTEMPTS ≤ c) :
    loginAttempt (some ⟨c, t⟩) now bv cr =
      (⟨c, now⟩, .rateLimited, false) := by
  simp [loginAttempt, loginRateLimiter_within c t now hgap, hc]

/-- `lastAttempt` of the stored record is set to `now` by the middleware
(routes.ts line 58), in every branch. -/
theorem loginRateLimiter_lastAttempt (rec : Option AttemptInfo) (now : Nat) :
    (loginRateLimiter rec now).1.lastAttempt = now := by
  cases rec <;> simp [loginRateLimiter]

/- ### Claims about the rate gate -/

/-- C1: for every client identity, after 5 consecutive failed login
attempts within the block window, the 6th attempt from that identity is
rejected with HTTP 429 and the login verifier is never invoked on that
attempt, whatever the 6th request's body or credentials. -/
theorem C1_sixth_attempt_rate_limited
    (t1 t2 t3 t4 t5 t6 : Nat)
    (h2 : t2 - t1 ≤ BLOCK_TIME_MS) (h3 : t3 - t2 ≤ BLOCK_TIME_MS)
    (h4 : t4 - t3 ≤ BLOCK_TIME_MS) (h5 : t5 - t4 ≤ BLOCK_TIME_MS)
    (h6 : t6 - t5 ≤ BLOCK_TIME_MS) (bv cr : Bool) :
    let r1 := loginAttempt none t1 true false
    let r2 := loginAttempt (some r1.1) t2 true false
    let r3 := loginAttempt (some r2.1) t3 true false
    let r4 := loginAttempt (some r3.1) t4 true false
    let r5 := loginAttempt (some r4.1) t5 true false
    let r6 := loginAttempt (some r5.1) t6 bv cr
    r6.2.1 = .rateLimited ∧ r6.2.1.status = 429 ∧ r6.2.2 = false := by
  have e1 := loginAttempt_fresh_fail t1
  have e2 := loginAttempt_fail_step 1 t1 t2 h2 (by decide)
  have e3 := loginAttempt_fail_step 2 t2 t3 h3 (by decide)
  have e4 := loginAttempt_fail_step 3 t3 t4 h4 (by decide)
  have e5 := loginAttempt_fail_step 4 t4 t5 h5 (by decide)
  have e6 := loginAttempt_blocked 5 t5 t6 bv cr h6 (by decide)
  simp [e1, e2, e3, e4, e5, e6, LoginResult.status]

/-- Witness for C1 at the concrete timestamps 0,0,0,0,0,0. -/
theorem C1_sixth_attempt_rate_limited_witness :
    (loginAttempt (some (loginAttempt (some (loginAttempt (some
      (loginAttempt (some (loginAttempt (some
        (loginAttempt none 0 true false).1) 0 true false).1)
          0 true false).1) 0 true false).1) 0 true false).1)
            0 true true).2.1 = LoginResult.rateLimited := by
  have h := C1_sixth_attempt_rate_limited 0 0 0 0 0 0
    (by decide) (by decide) (by decide) (by decide) (by decide) true true
  exact h.1

/-- C2 counterexample: the claim asserts that elapsed time `≥ BLOCK_WINDOW`
resets the counter and un-blocks; the code (routes.ts line 54) resets only
when elapsed time is strictly greater than `BLOCK_TIME_MS`.  At elapsed
time exactly `BLOCK_TIME_MS` with count 5, the attempt is still answered
429 and the counter stays 5. -/
theorem C2_geq_window_counterexample :
    (loginAttempt (some ⟨5, 0⟩) BLOCK_TIME_MS true true).2.1 =
      LoginResult.rateLimited ∧
    (loginAttempt (some ⟨5, 0⟩) BLOCK_TIME_MS true true).1.count = 5 ∧
    BLOCK_TIME_MS - 0 ≥ BLOCK_TIME_MS := by decide

/-- C2 amended: if the elapsed time since the identity's last attempt is
STRICTLY GREATER than `BLOCK_TIME_MS`, the next attempt resets the counter
to 0 regardless of its prior value and proceeds exactly as from a fresh
(Open) record; in particular it is not rate-limited. -/
theorem C2_expired_block_resets (c t now : Nat) (bv cr : Bool)
    (hgap : BLOCK_TIME_MS < now - t) :
    loginAttempt (some ⟨c, t⟩) now bv cr = loginAttempt none now bv cr ∧
    (loginAttempt (some ⟨c, t⟩) now bv cr).2.1 ≠ LoginResult.rateLimited := by
  have he := loginRateLimiter_expired c t now hgap
  have hf := loginRateLimiter_fresh now
  constructor
  · simp [loginAttempt, he, hf]
  · cases bv <;> cases cr <;> simp [loginAttempt, he]

/-- Witness for C2's amended theorem at count 9, last attempt 0, now one
past the window. -/
theorem C2_expired_block_resets_witness :
    loginAttempt (some ⟨9, 0⟩) (BLOCK_TIME_MS + 1) true true =
      loginAttempt none (BLOCK_TIME_MS + 1) true true :=
  (C2_expired_block_resets 9 0 (BLOCK_TIME_MS + 1) true true (by decide)).1

/-- C3: on the login endpoint, within the block window, a successful
authentication resets the identity's counter to 0, a failed one increments
it by exactly 1, and no other outcome (rate-limited, or schema-validation
failure) changes the counter. -/
theorem C3_counter_transitions (c t now : Nat) (bv cr : Bool)
    (hgap : now - t ≤ BLOCK_TIME_MS) :
    (MAX_ATTEMPTS ≤ c →
      (loginAttempt (some ⟨c, t⟩) now bv cr).1.count = c) ∧
    (c < MAX_ATTEMPTS → bv = false →
      (loginAttempt (some ⟨c, t⟩) now bv cr).1.count = c) ∧
    (c < MAX_ATTEMPTS → bv = true → cr = true →
      (loginAttempt (some ⟨c, t⟩) now bv cr).1.count = 0) ∧
    (c < MAX_ATTEMPTS → bv = true → cr = false →
      (loginAttempt (some ⟨c, t⟩) now bv cr).1.count = c + 1) := by
  have hw := loginRateLimiter_within c t now hgap
  refine ⟨fun hc => ?_, fun hc hb => ?_, fun hc hb hr => ?_,
    fun hc hb hr => ?_⟩ <;>
    simp [loginAttempt, hw, *, Nat.not_le.mpr hc]

/-- Witness for C3 at count 0, a successful login at time 0. -/
theorem C3_counter_transitions_witness :
    (loginAttempt (some ⟨0, 0⟩) 0 true true).1.count = 0 :=
  (C3_counter_transitions 0 0 0 true true (by decide)).2.2.1
    (by decide) rfl rfl

/-- C7: every login attempt, allowed or blocked, valid body or not,
updates the identity's stored `lastAttempt` to the current time. -/
theorem C7_lastAttempt_always_updated (rec : Option AttemptInfo)
    (now : Nat) (bv cr : Bool) :
    (loginAttempt rec now bv cr).1.lastAttempt = now := by
  have h := loginRateLimiter_lastAttempt rec now
  cases bv <;> cases cr <;>
    simp only [loginAttempt] <;> split <;> simp_all

/- ### Vault data model -/

/-- Digit run to a number, most significant first. -/
def digitsToNat (ds : List Char) : Nat :=
  ds.foldl (fun a c => a * 10 + (c.toNat - 48)) 0

/-- ECMAScript `parseInt(s)` in base 10, as called on `req.params.id`
(routes.ts lines 195, 259, 313, 384): skip leading whitespace, read an
optional sign, then the longest leading run of digits; the result is `none`
(JS `NaN`) when that run is empty. -/
def parseIntJS (s : String) : Option Int :=
  let cs := s.data.dropWhile Char.isWhitespace
  let core : List Char → Option Nat := fun l =>
    let ds := l.takeWhile Char.isDigit
    if ds.isEmpty then none else some (digitsToNat ds)
  match cs with
  | '-' :: rest => (core rest).map (fun n => -(n : Int))
  | '+' :: rest => (core rest).map (fun n => (n : Int))
  | _ => (core cs).map (fun n => (n : Int))

/-- Modelled from the spec: `calculatePasswordStrength` lives in
src/server/utils.ts, which is not among the provided sources.  Spec §4.1:
a pure, deterministic score in [0,100] combining independent criteria —
minimum length, presence of uppercase, lowercase, digit and symbol
character classes, and a length bonus beyond the baseline — with empty or
malformed input scoring the floor, never an error. -/
def calculatePasswordStrength (s : String) : Nat :=
  let len := s.length
  let baseLen := if 8 ≤ len then 20 else 0
  let up := if s.data.any Char.isUpper then 15 else 0
  let low := if s.data.any Char.isLower then 15 else 0
  let dig := if s.data.any Char.isDigit then 15 else 0
  let sym := if s.data.any (fun c => !c.isAlphanum) then 15 else 0
  let bonus := min 20 (2 * (len - 8))
  baseLen + up + low + dig + sym + bonus

/-- One stored credential entry (shared schema `passwords` row: id, owner,
title, encrypted payload, derived strength). -/
structure CredentialEntry where
  id : Nat
  userId : Nat
  title : String
  encryptedPassword : String
  strength : Nat
deriving Repr, DecidableEq

/-- One audit-log row, as assembled by the routes: acting user, action tag,
human-readable detail, originating address, client agent, creation time. -/
structure ActivityLogEntry where
  userId : Nat
  action : String
  details : String
  ipAddress : String
  userAgent : String
  timestamp : Nat
deriving Repr, DecidableEq

/-- One security alert: owner, resolved flag. -/
structure SecurityAlert where
  id : Nat
  userId : Nat
  resolved : Bool
deriving Repr, DecidableEq

/-- The durable store behind `storage`: credential entries, activity log
(most recent at the head), security alerts, and the next fresh entry id. -/
structure Store where
  passwords : List CredentialEntry
  logs : List ActivityLogEntry
  alerts : List SecurityAlert
  nextId : Nat
deriving Repr, DecidableEq

/-- Ownership-scoped match used by get/update/delete. -/
def entryMatches (id uid : Nat) (e : CredentialEntry) : Bool :=
  e.id == id && e.userId == uid

/-- Modelled from the spec: `storage.getPasswordsByUserId`
(src/server/storage.ts, absent from the sources) — `list(userId)`: the
user's entries in insertion order, owner-filtered. -/
def getPasswordsByUserId (st : Store) (uid : Nat) : List CredentialEntry :=
  st.passwords.filter (fun e => e.userId == uid)

/-- Modelled from the spec: `storage.getPasswordById` — `get(entryId,
userId)`: the entry only when it exists and is owned by `userId`; absent
and non-owned are both `none`. -/
def getPasswordById (st : Store) (id uid : Nat) : Option CredentialEntry :=
  st.passwords.find? (entryMatches id uid)

/-- Modelled from the spec: `storage.createPassword` — persists a new
entry (fresh id, owner `uid`) with the strength the route computed. -/
def createPassword (st : Store) (title payload : String)
    (strength uid : Nat) : Store × CredentialEntry :=
  let e : CredentialEntry := ⟨st.nextId, uid, title, payload, strength⟩
  ({ st with passwords := st.passwords ++ [e], nextId := st.nextId + 1 }, e)

/-- Partial update record passed by the route to `storage.updatePassword`:
the schema-validated optional fields plus the strength the route may have
added. -/
structure UpdateData where
  title : Option String
  encryptedPassword : Option String
  strength : Option Nat
deriving Repr, DecidableEq

/-- Apply the provided fields of a partial update to an entry. -/
def applyUpdate (d : UpdateData) (e : CredentialEntry) : CredentialEntry :=
  { e with
    title := d.title.getD e.title
    encryptedPassword := d.encryptedPassword.getD e.encryptedPassword
    strength := d.strength.getD e.strength }

/-- Modelled from the spec: `storage.updatePassword` — `update(entryId,
userId, partialFields)`: when an owned entry exists, applies exactly the
provided fields and returns the new store with the updated entry;
otherwise `none` (not-found and not-owned are indistinguishable). -/
def updatePassword (st : Store) (id uid : Nat) (d : UpdateData) :
    Option (Store × CredentialEntry) :=
  match st.passwords.find? (entryMatches id uid) with
  | none => none
  | some e =>
    let e' := applyUpdate d e
    some ({ st with passwords :=
      st.passwords.map (fun x => if entryMatches id uid x then e' else x) },
      e')

/-- Modelled from the spec: `storage.deletePassword` — removes the entry
only if owned; `none` (JS `false`) when absent or not owned. -/
def deletePassword (st : Store) (id uid : Nat) : Option Store :=
  if st.passwords.any (entryMatches id uid) then
    some { st with
      passwords := st.passwords.filter (fun e => !entryMatches id uid e) }
  else none

/-- Modelled from the spec: `storage.createActivityLog` — append-only;
the newest entry sits at the head so retrieval is most-recent-first. -/
def createActivityLog (st : Store) (l : ActivityLogEntry) : Store :=
  { st with logs := l :: st.logs }

/-- Modelled from the spec: `storage.getActivityLogsByUserId` —
`ListActivity(userId, limit)`: the acting user's entries, most-recent
first, at most `limit` of them. -/
def getActivityLogsByUserId (st : Store) (uid limit : Nat) :
    List ActivityLogEntry :=
  (st.logs.filter (fun l => l.userId == uid)).take limit

/-- Modelled from the spec: `storage.getSecurityAlertsByUserId` — the
user's alerts. -/
def getSecurityAlertsByUserId (st : Store) (uid : Nat) :
    List SecurityAlert :=
  st.alerts.filter (fun a => a.userId == uid)

/-- An alert eligible for resolution: right id, right owner, not yet
resolved (spec §4.4: resolving an already-resolved, non-owned or
nonexistent alert returns false). -/
def alertMatches (id uid : Nat) (a : SecurityAlert) : Bool :=
  a.id == id && (a.userId == uid && !a.resolved)

/-- Modelled from the spec: `storage.resolveSecurityAlert` — sets
`resolved := true` exactly once; `none` (JS `false`) otherwise. -/
def resolveSecurityAlert (st : Store) (id uid : Nat) : Option Store :=
  if st.alerts.any (alertMatches id uid) then
    let step := fun (a : SecurityAlert) =>
      if alertMatches id uid a then { a with resolved := true } else a
    some { st with alerts := st.alerts.map step }
  else none

/-- Spec §8: the weak threshold used by the stats aggregate. -/
def WEAK_MAX : Nat := 39

/-- Spec §8: the strong threshold used by the stats aggregate. -/
def STRONG_MIN : Nat := 70

/-- Modelled from the spec: `storage.getPasswordStats` — `stats(userId)`:
raw counts (total, strong, weak) over the user's current entries under the
scorer thresholds. -/
def getPasswordStats (st : Store) (uid : Nat) : Nat × Nat × Nat :=
  let mine := getPasswordsByUserId st uid
  (mine.length,
    (mine.filter (fun e => STRONG_MIN ≤ e.strength)).length,
    (mine.filter (fun e => e.strength ≤ WEAK_MAX)).length)

/- ### Route handlers (routes.ts lines 170-418) -/

/-- Response of a vault / alert / activity route, by shape. -/
inductive VaultResponse where
  | badRequest (msg : String)
  | notFound (msg : String)
  | okEntry (e : CredentialEntry)
  | created (e : CredentialEntry)
  | okMsg (msg : String)
  | okEntries (l : List CredentialEntry)
  | okStats (total strong weak : Nat)
  | okAlerts (l : List SecurityAlert)
  | okLogs (l : List ActivityLogEntry)
deriving Repr, DecidableEq

/-- HTTP status of each response shape. -/
def VaultResponse.status : VaultResponse → Nat
  | .badRequest _ => 400
  | .notFound _ => 404
  | .created _ => 201
  | _ => 200

/-- GET /api/passwords (routes.ts lines 170-185): list the session user's
entries; no store change. -/
def getPasswordsRoute (st : Store) (uid : Nat) : Store × VaultResponse :=
  (st, .okEntries (getPasswordsByUserId st uid))

/-- GET /api/passwords/:id (routes.ts lines 187-211): `parseInt` the path
id, reject NaN or non-positive with 400, else look the entry up. -/
def getPasswordByIdRoute (st : Store) (uid : Nat) (idParam : String) :
    Store × VaultResponse :=
  match parseIntJS idParam with
  | none => (st, .badRequest ("Invalid password ID"))
  | some n =>
    if n ≤ 0 then (st, .badRequest ("Invalid password ID"))
    else
      match getPasswordById st n.toNat uid with
      | none => (st, .notFound ("Password not found"))
      | some e => (st, .okEntry e)

/-- Schema-validated body of POST /api/passwords (`insertPasswordSchema`):
the fields the route reads. -/
structure InsertBody where
  title : String
  encryptedPassword : String
deriving Repr, DecidableEq

/-- POST /api/passwords (routes.ts lines 213-249): validate the body
(`none` = `safeParse` failure, answered 400 before any store access),
compute the strength of the supplied encrypted payload, persist, then
append one `create_password` activity-log entry. -/
def createPasswordRoute (st : Store) (uid : Nat) (body : Option InsertBody)
    (now : Nat) (ip ua : String) : Store × VaultResponse :=
  match body with
  | none => (st, .badRequest ("Invalid input"))
  | some b =>
    let strength := calculatePasswordStrength b.encryptedPassword
    let r := createPassword st b.title b.encryptedPassword strength uid
    let log : ActivityLogEntry :=
      ⟨uid, "create_password", "Created password for " ++ r.2.title,
        ip, ua, now⟩
    (createActivityLog r.1 log, .created r.2)

/-- Schema-validated body of PUT /api/passwords/:id
(`updatePasswordSchema`): both fields optional. -/
structure UpdateBody where
  title : Option String
  encryptedPassword : Option String
deriving Repr, DecidableEq

/-- routes.ts lines 271-276: `if (result.data.encryptedPassword)` — a JS
truthiness test, so the strength is recomputed only when the field is
present AND non-empty; the update data otherwise carries no strength. -/
def mkUpdateData (b : UpdateBody) : UpdateData :=
  match b.encryptedPassword with
  | some s =>
    if s == "" then ⟨b.title, b.encryptedPassword, none⟩
    else ⟨b.title, b.encryptedPassword, some (calculatePasswordStrength s)⟩
  | none => ⟨b.title, b.encryptedPassword, none⟩

/-- PUT /api/passwords/:id (routes.ts lines 251-303): id check, body
validation, conditional strength recompute, store update, then one
`update_password` activity-log entry on success. -/
def updatePasswordRoute (st : Store) (uid : Nat) (idParam : String)
    (body : Option UpdateBody) (now : Nat) (ip ua : String) :
    Store × VaultResponse :=
  match parseIntJS idParam with
  | none => (st, .badRequest ("Invalid password ID"))
  | some n =>
    if n ≤ 0 then (st, .badRequest ("Invalid password ID"))
    else
      match body with
      | none => (st, .badRequest ("Invalid input"))
      | some b =>
        match updatePassword st n.toNat uid (mkUpdateData b) with
        | none => (st, .notFound ("Password not found"))
        | some r =>
          let log : ActivityLogEntry :=
            ⟨uid, "update_password", "Updated password for " ++ r.2.title,
              ip, ua, now⟩
          (createActivityLog r.1 log, .okEntry r.2)

/-- DELETE /api/passwords/:id (routes.ts lines 305-338): id check, store
delete, then one `delete_password` activity-log entry on success. -/
def deletePasswordRoute (st : Store) (uid : Nat) (idParam : String)
    (now : Nat) (ip ua : String) : Store × VaultResponse :=
  match parseIntJS idParam with
  | none => (st, .badRequest ("Invalid password ID"))
  | some n =>
    if n ≤ 0 then (st, .badRequest ("Invalid password ID"))
    else
      match deletePassword st n.toNat uid with
      | none => (st, .notFound ("Password not found"))
      | some st1 =>
        let log : ActivityLogEntry :=
          ⟨uid, "delete_password",
            "Deleted password with id " ++ toString n.toNat, ip, ua, now⟩
        (createActivityLog st1 log, .okMsg ("Password deleted successfully"))

/-- GET /api/password-stats (routes.ts lines 341-356): read-only. -/
def getStatsRoute (st : Store) (uid : Nat) : Store × VaultResponse :=
  let s := getPasswordStats st uid
  (st, .okStats s.1 s.2.1 s.2.2)

/-- GET /api/security-alerts (routes.ts lines 359-374): read-only. -/
def getAlertsRoute (st : Store) (uid : Nat) : Store × VaultResponse :=
  (st, .okAlerts (getSecurityAlertsByUserId st uid))

/-- POST /api/security-alerts/:id/resolve (routes.ts lines 376-400): id
check, then the resolve state transition; note there is no activity-log
write on this route. -/
def resolveAlertRoute (st : Store) (uid : Nat) (idParam : String) :
    Store × VaultResponse :=
  match parseIntJS idParam with
  | none => (st, .badRequest ("Invalid alert ID"))
  | some n =>
    if n ≤ 0 then (st, .badRequest ("Invalid alert ID"))
    else
      match resolveSecurityAlert st n.toNat uid with
      | none => (st, .notFound ("Security alert not found"))
      | some st1 => (st1, .okMsg ("Alert resolved successfully"))

/-- GET /api/activity-logs (routes.ts lines 403-418): the route itself
supplies the bound 20 to the storage call (line 411); read-only. -/
def getLogsRoute (st : Store) (uid : Nat) : Store × VaultResponse :=
  (st, .okLogs (getActivityLogsByUserId st uid 20))

/- ### Frame lemmas for the storage operations -/

/-- `updatePassword` touches only the `passwords` field of the store. -/
theorem updatePassword_frame (st : Store) (id uid : Nat) (d : UpdateData)
    (r : Store × CredentialEntry) (h : updatePassword st id uid d = some r) :
    r.1.logs = st.logs ∧ r.1.alerts = st.alerts ∧ r.1.nextId = st.nextId := by
  unfold updatePassword at h
  cases hf : st.passwords.find? (entryMatches id uid) <;> rw [hf] at h
  · exact absurd h (by simp)
  · simp only [Option.some.injEq] at h
    subst h
    exact ⟨rfl, rfl, rfl⟩

/-- `deletePassword` touches only the `passwords` field of the store. -/
theorem deletePassword_frame (st : Store) (id uid : Nat) (st1 : Store)
    (h : deletePassword st id uid = some st1) :
    st1.logs = st.logs ∧ st1.alerts = st.alerts ∧ st1.nextId = st.nextId := by
  unfold deletePassword at h
  split at h
  · simp only [Option.some.injEq] at h
    subst h
    exact ⟨rfl, rfl, rfl⟩
  · exact absurd h (by simp)

/-- `resolveSecurityAlert` touches only the `alerts` field of the store. -/
theorem resolveSecurityAlert_frame (st : Store) (id uid : Nat) (st1 : Store)
    (h : resolveSecurityAlert st id uid = some st1) :
    st1.logs = st.logs ∧ st1.passwords = st.passwords ∧
      st1.nextId = st.nextId := by
  unfold resolveSecurityAlert at h
  split at h
  · simp only [Option.some.injEq] at h
    subst h
    exact ⟨rfl, rfl, rfl⟩
  · exact absurd h (by simp)

/- ### Characterization of the mutating routes -/

/-- Every run of PUT /api/passwords/:id with a schema-valid body lands in
exactly one of: 400 with the store untouched, 404 with the store
untouched, or a successful store update followed by one
`update_password` log append. -/
theorem updatePasswordRoute_spec (st : Store) (uid now : Nat)
    (idp ip ua : String) (ub : UpdateBody) :
    (∃ msg, updatePasswordRoute st uid idp (some ub) now ip ua =
      (st, .badRequest msg)) ∨
    (∃ msg, updatePasswordRoute st uid idp (some ub) now ip ua =
      (st, .notFound msg)) ∨
    (∃ n st1 e, parseIntJS idp = some n ∧
      updatePassword st n.toNat uid (mkUpdateData ub) = some (st1, e) ∧
      updatePasswordRoute st uid idp (some ub) now ip ua =
        (createActivityLog st1
          ⟨uid, "update_password", "Updated password for " ++ e.title,
            ip, ua, now⟩, .okEntry e)) := by
  unfold updatePasswordRoute
  cases hp : parseIntJS idp with
  | none => exact Or.inl ⟨_, rfl⟩
  | some n =>
    dsimp only
    by_cases hn : n ≤ 0
    · rw [if_pos hn]
      exact Or.inl ⟨_, rfl⟩
    · rw [if_neg hn]
      cases hu : updatePassword st n.toNat uid (mkUpdateData ub) with
      | none => exact Or.inr (Or.inl ⟨_, rfl⟩)
      | some r =>
        obtain ⟨st1, e⟩ := r
        exact Or.inr (Or.inr ⟨n, st1, e, rfl, hu, rfl⟩)

/-- Every run of DELETE /api/passwords/:id lands in exactly one of: 400
with the store untouched, 404 with the store untouched, or a successful
delete followed by one `delete_password` log append. -/
theorem deletePasswordRoute_spec (st : Store) (uid now : Nat)
    (idp ip ua : String) :
    (∃ msg, deletePasswordRoute st uid idp now ip ua =
      (st, .badRequest msg)) ∨
    (∃ msg, deletePasswordRoute st uid idp now ip ua =
      (st, .notFound msg)) ∨
    (∃ n st1, parseIntJS idp = some n ∧
      deletePassword st n.toNat uid = some st1 ∧
      deletePasswordRoute st uid idp now ip ua =
        (createActivityLog st1
          ⟨uid, "delete_password",
            "Deleted password with id " ++ toString n.toNat, ip, ua, now⟩,
          .okMsg ("Password deleted successfully"))) := by
  unfold deletePasswordRoute
  cases hp : parseIntJS idp with
  | none => exact Or.inl ⟨_, rfl⟩
  | some n =>
    dsimp only
    by_cases hn : n ≤ 0
    · rw [if_pos hn]
      exact Or.inl ⟨_, rfl⟩
    · rw [if_neg hn]
      cases hu : deletePassword st n.toNat uid with
      | none => exact Or.inr (Or.inl ⟨_, rfl⟩)
      | some st1 => exact Or.inr (Or.inr ⟨n, st1, rfl, hu, rfl⟩)

/-- Every run of POST /api/security-alerts/:id/resolve lands in exactly
one of: 400 or 404 with the store untouched, or a successful resolve with
NO log append. -/
theorem resolveAlertRoute_spec (st : Store) (uid : Nat) (idp : String) :
    (∃ msg, resolveAlertRoute st uid idp = (st, .badRequest msg)) ∨
    (∃ msg, resolveAlertRoute st uid idp = (st, .notFound msg)) ∨
    (∃ n st1, parseIntJS idp = some n ∧
      resolveSecurityAlert st n.toNat uid = some st1 ∧
      resolveAlertRoute st uid idp =
        (st1, .okMsg ("Alert resolved successfully"))) := by
  unfold resolveAlertRoute
  cases hp : parseIntJS idp with
  | none => exact Or.inl ⟨_, rfl⟩
  | some n =>
    dsimp only
    by_cases hn : n ≤ 0
    · rw [if_pos hn]
      exact Or.inl ⟨_, rfl⟩
    · rw [if_neg hn]
      cases hu : resolveSecurityAlert st n.toNat uid with
      | none => exact Or.inr (Or.inl ⟨_, rfl⟩)
      | some st1 => exact Or.inr (Or.inr ⟨n, st1, rfl, hu, rfl⟩)

/-- GET /api/passwords/:id never changes the store, in every branch. -/
theorem getPasswordByIdRoute_frame (st : Store) (uid : Nat)
    (idp : String) : (getPasswordByIdRoute st uid idp).1 = st := by
  unfold getPasswordByIdRoute
  cases parseIntJS idp with
  | none => rfl
  | some n =>
    dsimp only
    by_cases hn : n ≤ 0
    · rw [if_pos hn]
    · rw [if_neg hn]
      cases getPasswordById st n.toNat uid <;> rfl

/- ### C4: strength recompute on update -/

/-- C4 counterexample: `encryptedPayload` IS among the updated fields (it
is set to the empty string, and the store persists it), yet the persisted
strength stays at the old value 80 instead of
`calculatePasswordStrength("") = 0`, because routes.ts line 273 guards the
recompute with the JS truthiness test `if (result.data.encryptedPassword)`
and `""` is falsy. -/
theorem C4_empty_payload_counterexample :
    (updatePasswordRoute ⟨[⟨1, 1, "site", "Aa1!aaaa", 80⟩], [], [], 2⟩ 1
        ("1") (some ⟨none, some ""⟩) 0 ("") ("")).2 =
      VaultResponse.okEntry ⟨1, 1, "site", "", 80⟩ ∧
    (updatePasswordRoute ⟨[⟨1, 1, "site", "Aa1!aaaa", 80⟩], [], [], 2⟩ 1
        ("1") (some ⟨none, some ""⟩) 0 ("") ("")).1.passwords =
      [⟨1, 1, "site", "", 80⟩] ∧
    calculatePasswordStrength ("") = 0 ∧ (80 : Nat) ≠ 0 := by decide

/-- C4 amended: on a successful update, if `encryptedPayload` is among the
updated fields AND is non-empty, the persisted strength equals
`calculatePasswordStrength` of the new payload, persisted together with
it; if `encryptedPayload` is absent the stored strength is unchanged; but
if it is updated to the empty string (a falsy value in JS), the payload is
persisted while the strength keeps its old value. -/
theorem C4_strength_recompute_amended (st : Store) (uid now : Nat)
    (idp ip ua : String) (b : UpdateBody) (n : Int) (e : CredentialEntry)
    (hp : parseIntJS idp = some n) (hn : 0 < n)
    (hf : st.passwords.find? (entryMatches n.toNat uid) = some e) :
    (updatePasswordRoute st uid idp (some b) now ip ua).2 =
      VaultResponse.okEntry (applyUpdate (mkUpdateData b) e) ∧
    (∀ s, b.encryptedPassword = some s → s ≠ "" →
      (applyUpdate (mkUpdateData b) e).strength =
        calculatePasswordStrength s ∧
      (applyUpdate (mkUpdateData b) e).encryptedPassword = s) ∧
    (b.encryptedPassword = none →
      (applyUpdate (mkUpdateData b) e).strength = e.strength ∧
      (applyUpdate (mkUpdateData b) e).encryptedPassword =
        e.encryptedPassword) ∧
    (b.encryptedPassword = some "" →
      (applyUpdate (mkUpdateData b) e).strength = e.strength ∧
      (applyUpdate (mkUpdateData b) e).encryptedPassword = "") := by
  refine ⟨?_, ?_, ?_, ?_⟩
  · unfold updatePasswordRoute updatePassword
    rw [hp]
    dsimp only
    rw [if_neg (not_le.mpr hn), hf]
  · intro s hs hne
    simp [mkUpdateData, applyUpdate, hs, hne]
  · intro hnone
    simp [mkUpdateData, applyUpdate, hnone]
  · intro hemp
    simp [mkUpdateData, applyUpdate, hemp]

/-- Witness for C4's amended theorem: updating the payload to a non-empty
value recomputes the stored strength. -/
theorem C4_strength_recompute_amended_witness :
    (applyUpdate (mkUpdateData ⟨none, some ("Bb2@bbbb")⟩)
        ⟨1, 1, "site", "Aa1!aaaa", 80⟩).strength =
      calculatePasswordStrength ("Bb2@bbbb") :=
  ((C4_strength_recompute_amended
      ⟨[⟨1, 1, "site", "Aa1!aaaa", 80⟩], [], [], 2⟩ 1 0 ("1") ("") ("")
      ⟨none, some ("Bb2@bbbb")⟩ 1 ⟨1, 1, "site", "Aa1!aaaa", 80⟩
      (by decide) (by decide) (by decide)).2.1 ("Bb2@bbbb") rfl
      (by decide)).1

/- ### C5: exactly one audit entry per successful mutation -/

/-- C5: every successful create, update and delete of a credential entry
appends exactly one ActivityLogEntry with action `create_password`,
`update_password` or `delete_password` respectively; unsuccessful calls
(schema-validation failure, invalid id, not-found) leave the store — in
particular the log — unchanged. -/
theorem C5_one_audit_entry_per_mutation (st : Store) (uid now : Nat)
    (idp ip ua : String) (b : InsertBody) (ub : UpdateBody) :
    ((createPasswordRoute st uid (some b) now ip ua).1.logs =
      ⟨uid, "create_password", "Created password for " ++ b.title, ip, ua,
        now⟩ :: st.logs) ∧
    ((createPasswordRoute st uid none now ip ua).1 = st) ∧
    (∀ e, (updatePasswordRoute st uid idp (some ub) now ip ua).2 =
        VaultResponse.okEntry e →
      (updatePasswordRoute st uid idp (some ub) now ip ua).1.logs =
        ⟨uid, "update_password", "Updated password for " ++ e.title, ip,
          ua, now⟩ :: st.logs) ∧
    ((∀ e, (updatePasswordRoute st uid idp (some ub) now ip ua).2 ≠
        VaultResponse.okEntry e) →
      (updatePasswordRoute st uid idp (some ub) now ip ua).1 = st) ∧
    ((updatePasswordRoute st uid idp none now ip ua).1 = st) ∧
    (∀ m, (deletePasswordRoute st uid idp now ip ua).2 =
        VaultResponse.okMsg m →
      ∃ l, (deletePasswordRoute st uid idp now ip ua).1.logs =
        l :: st.logs ∧ l.action = "delete_password") ∧
    ((∀ m, (deletePasswordRoute st uid idp now ip ua).2 ≠
        VaultResponse.okMsg m) →
      (deletePasswordRoute st uid idp now ip ua).1 = st) := by
  refine ⟨?_, rfl, ?_, ?_, ?_, ?_, ?_⟩
  · simp [createPasswordRoute, createPassword, createActivityLog]
  · intro e he
    rcases updatePasswordRoute_spec st uid now idp ip ua ub with
      ⟨msg, hq⟩ | ⟨msg, hq⟩ | ⟨n, st1, e1, hp, hu, hq⟩
    · rw [hq] at he
      exact absurd he (by simp)
    · rw [hq] at he
      exact absurd he (by simp)
    · rw [hq] at he
      simp only [VaultResponse.okEntry.injEq] at he
      subst he
      rw [hq]
      have hfr : st1.logs = st.logs :=
        (updatePassword_frame st n.toNat uid (mkUpdateData ub)
          (st1, e1) hu).1
      simp [createActivityLog, hfr]
  · intro hne
    rcases updatePasswordRoute_spec st uid now idp ip ua ub with
      ⟨msg, hq⟩ | ⟨msg, hq⟩ | ⟨n, st1, e1, hp, hu, hq⟩
    · rw [hq]
    · rw [hq]
    · exact absurd (by rw [hq]) (hne e1)
  · unfold updatePasswordRoute
    cases parseIntJS idp with
    | none => rfl
    | some n =>
      dsimp only
      by_cases hn : n ≤ 0
      · rw [if_pos hn]
      · rw [if_neg hn]
  · intro m hm
    rcases deletePasswordRoute_spec st uid now idp ip ua with
      ⟨msg, hq⟩ | ⟨msg, hq⟩ | ⟨n, st1, hp, hu, hq⟩
    · rw [hq] at hm
      exact absurd hm (by simp)
    · rw [hq] at hm
      exact absurd hm (by simp)
    · rw [hq]
      have hfr := (deletePassword_frame st n.toNat uid st1 hu).1
      refine ⟨⟨uid, "delete_password",
        "Deleted password with id " ++ toString n.toNat, ip, ua, now⟩,
        ?_, rfl⟩
      simp [createActivityLog, hfr]
  · intro hne
    rcases deletePasswordRoute_spec st uid now idp ip ua with
      ⟨msg, hq⟩ | ⟨msg, hq⟩ | ⟨n, st1, hp, hu, hq⟩
    · rw [hq]
    · rw [hq]
    · exact absurd (by rw [hq]) (hne ("Password deleted successfully"))

/-- Witness for C5: a concrete successful create appends exactly the
`create_password` entry. -/
theorem C5_one_audit_entry_per_mutation_witness :
    (createPasswordRoute ⟨[], [], [], 1⟩ 1 (some ⟨"t", "p"⟩) 3
      ("ip") ("ua")).1.logs =
      ⟨1, "create_password", "Created password for " ++ "t", "ip", "ua",
        3⟩ :: ([] : List ActivityLogEntry) :=
  (C5_one_audit_entry_per_mutation ⟨[], [], [], 1⟩ 1 3 ("1") ("ip") ("ua")
    ⟨"t", "p"⟩ ⟨none, none⟩).1

/- ### C6: validation failures and state changes -/

/-- PUT /api/passwords/:id with a schema-invalid body never changes the
store, whatever the id parameter. -/
theorem updatePasswordRoute_none_frame (st : Store) (uid now : Nat)
    (idp ip ua : String) :
    (updatePasswordRoute st uid idp none now ip ua).1 = st := by
  unfold updatePasswordRoute
  cases parseIntJS idp with
  | none => rfl
  | some n =>
    dsimp only
    by_cases hn : n ≤ 0
    · rw [if_pos hn]
    · rw [if_neg hn]

/-- C6 counterexample: a login request whose body fails schema validation
(answered 400) still creates a rate-limit record for a fresh identity —
`loginAttempts[ip]` goes from absent to `{count := 0, lastAttempt := 7}` —
because the `loginRateLimiter` middleware (routes.ts lines 47-58) runs
before the schema parse (line 81). -/
theorem C6_record_created_before_validation_counterexample :
    (loginAttempt none 7 false false).2.1 = LoginResult.badRequest ∧
    (loginAttempt none 7 false false).1 = ⟨0, 7⟩ := by decide

/-- C6 amended: a schema-validation failure is rejected with no change to
vault entries, activity log or alerts (the vault routes return the store
untouched), and on the login route it leaves the attempt COUNTER unchanged
and never reaches the verifier — but the login rate-limit RECORD is
created/refreshed (its `lastAttempt` set to now) by the middleware before
validation runs. -/
theorem C6_validation_rejected_before_state_change_amended (st : Store)
    (uid now c t : Nat) (idp ip ua : String) (cr : Bool)
    (hgap : now - t ≤ BLOCK_TIME_MS) :
    ((createPasswordRoute st uid none now ip ua).1 = st) ∧
    ((updatePasswordRoute st uid idp none now ip ua).1 = st) ∧
    (loginAttempt (some ⟨c, t⟩) now false cr =
      (⟨c, now⟩,
        if MAX_ATTEMPTS ≤ c then LoginResult.rateLimited
        else LoginResult.badRequest, false)) := by
  refine ⟨rfl, updatePasswordRoute_none_frame st uid now idp ip ua, ?_⟩
  by_cases hc : MAX_ATTEMPTS ≤ c
  · rw [if_pos hc]
    exact loginAttempt_blocked c t now false cr hgap hc
  · rw [if_neg hc]
    simp [loginAttempt, loginRateLimiter_within c t now hgap, hc]

/-- Witness for C6's amended theorem at a concrete fresh store. -/
theorem C6_validation_rejected_before_state_change_amended_witness :
    (createPasswordRoute ⟨[], [], [], 1⟩ 1 none 0 ("") ("")).1 =
      (⟨[], [], [], 1⟩ : Store) :=
  (C6_validation_rejected_before_state_change_amended ⟨[], [], [], 1⟩
    1 0 0 0 ("1") ("") ("") false (by decide)).1

/- ### C9: invalid id path parameter -/

/-- C9: on get/update/delete of a credential entry and on alert resolve,
an id path parameter that does not parse to a positive integer (`NaN` via
`parseInt`, or `≤ 0`) is answered with HTTP 400 and an invalid-ID message,
and the store is returned untouched — no storage operation runs. -/
theorem C9_invalid_id_param_rejected (st : Store) (uid now : Nat)
    (idp ip ua : String) (ub : Option UpdateBody)
    (hbad : (parseIntJS idp).getD 0 ≤ 0) :
    getPasswordByIdRoute st uid idp =
      (st, .badRequest ("Invalid password ID")) ∧
    updatePasswordRoute st uid idp ub now ip ua =
      (st, .badRequest ("Invalid password ID")) ∧
    deletePasswordRoute st uid idp now ip ua =
      (st, .badRequest ("Invalid password ID")) ∧
    resolveAlertRoute st uid idp =
      (st, .badRequest ("Invalid alert ID")) ∧
    (VaultResponse.badRequest ("Invalid password ID")).status = 400 ∧
    (VaultResponse.badRequest ("Invalid alert ID")).status = 400 := by
  cases hp : parseIntJS idp with
  | none =>
    refine ⟨?_, ?_, ?_, ?_, rfl, rfl⟩ <;>
      simp [getPasswordByIdRoute, updatePasswordRoute,
        deletePasswordRoute, resolveAlertRoute, hp]
  | some n =>
    rw [hp] at hbad
    simp only [Option.getD_some] at hbad
    refine ⟨?_, ?_, ?_, ?_, rfl, rfl⟩ <;>
      simp [getPasswordByIdRoute, updatePasswordRoute,
        deletePasswordRoute, resolveAlertRoute, hp, hbad]

/-- Witness for C9 at the unparsable id parameter "abc". -/
theorem C9_invalid_id_param_rejected_witness :
    getPasswordByIdRoute ⟨[], [], [], 1⟩ 1 ("abc") =
      (⟨[], [], [], 1⟩, .badRequest ("Invalid password ID")) :=
  (C9_invalid_id_param_rejected ⟨[], [], [], 1⟩ 1 0 ("abc") ("") ("")
    none (by decide)).1

/- ### C10: frame of the read endpoints and alert resolve -/

/-- C10: the read endpoints (list entries, get entry, password stats,
security alerts, activity logs) return the store untouched, and the
alert-resolve endpoint appends no activity-log entry and creates, changes
or deletes no credential entry (it may only change alerts); so among these
endpoints none writes to the audit log. -/
theorem C10_reads_and_resolve_do_not_log (st : Store) (uid : Nat)
    (idp jdp : String) :
    (getPasswordsRoute st uid).1 = st ∧
    (getPasswordByIdRoute st uid idp).1 = st ∧
    (getStatsRoute st uid).1 = st ∧
    (getAlertsRoute st uid).1 = st ∧
    (getLogsRoute st uid).1 = st ∧
    (resolveAlertRoute st uid jdp).1.logs = st.logs ∧
    (resolveAlertRoute st uid jdp).1.passwords = st.passwords := by
  refine ⟨rfl, getPasswordByIdRoute_frame st uid idp, rfl, rfl, rfl,
    ?_, ?_⟩
  · rcases resolveAlertRoute_spec st uid jdp with
      ⟨msg, hq⟩ | ⟨msg, hq⟩ | ⟨n, st1, hp, hu, hq⟩ <;> rw [hq]
    exact (resolveSecurityAlert_frame st n.toNat uid st1 hu).1
  · rcases resolveAlertRoute_spec st uid jdp with
      ⟨msg, hq⟩ | ⟨msg, hq⟩ | ⟨n, st1, hp, hu, hq⟩ <;> rw [hq]
    exact (resolveSecurityAlert_frame st n.toNat uid st1 hu).2.1

/- ### C8: activity-log retrieval -/

/-- C8: activity-log retrieval returns only the acting user's entries,
most-recent-first (sorted by non-increasing timestamp whenever the stored
log is, which `createActivityLog` maintains by prepending), bounded by the
limit its caller supplies — the GET /api/activity-logs route supplies 20
(routes.ts line 411). -/
theorem C8_activity_logs_most_recent_first (st : Store) (uid limit : Nat)
    (hs : st.logs.Sorted (fun a b => b.timestamp ≤ a.timestamp)) :
    (getActivityLogsByUserId st uid limit).length ≤ limit ∧
    (∀ l ∈ getActivityLogsByUserId st uid limit, l.userId = uid) ∧
    (getActivityLogsByUserId st uid limit).Sorted
      (fun a b => b.timestamp ≤ a.timestamp) ∧
    getLogsRoute st uid =
      (st, .okLogs (getActivityLogsByUserId st uid 20)) := by
  refine ⟨?_, ?_, ?_, rfl⟩
  · exact List.length_take_le limit _
  · intro l hl
    have h1 : l ∈ st.logs.filter (fun l => l.userId == uid) :=
      List.mem_of_mem_take hl
    have h2 := List.of_mem_filter h1
    simpa using h2
  · have hsub : List.Sublist (getActivityLogsByUserId st uid limit)
        st.logs :=
      (List.take_sublist _ _).trans (List.filter_sublist _)
    exact List.Pairwise.sublist hsub hs

/-- Witness for C8 on a concrete two-entry log sorted newest-first. -/
theorem C8_activity_logs_most_recent_first_witness :
    (getActivityLogsByUserId
      ⟨[], [⟨1, "a", "d", "i", "u", 5⟩, ⟨2, "a", "d", "i", "u", 3⟩],
        [], 1⟩ 1 1).length ≤ 1 :=
  (C8_activity_logs_most_recent_first
    ⟨[], [⟨1, "a", "d", "i", "u", 5⟩, ⟨2, "a", "d", "i", "u", 3⟩],
      [], 1⟩ 1 1 (by decide)).1
